import Mathlib

/-!
# EnerTrack-BE — `handlers/riwayat.go`

A shallow embedding of `GetDeviceHistoryHandler` and of the `HistoryResponseItem`
projection, followed by the properties of the device-history endpoint.

Conventions of the embedding

* A Go `error` is represented by its `Error()` text; `(v, err)` results are `Except String _`.
* A Go slice is `Option (List _)`: `none` is the `nil` slice that `var history []T` declares.
* A `float64` is carried as its IEEE-754 binary64 bit pattern; the handler only copies it.
* The `http.ResponseWriter` is an explicit state (headers, `WriteHeader` calls, body writes).
* The body written by `json.Encoder.Encode` is kept as the JSON document it denotes.
* The handler returns the writer together with the log lines and the `db.DB` calls it made.
-/

namespace EnerTrack

/-! ## Go values -/

/-- Dynamic values stored in `session.Values` (`map[interface{}]interface{}`). -/
inductive GoValue where
  | nil
  | string (s : String)
  | int (n : Int)
  | bool (b : Bool)
  | other (typeName : String)
  deriving DecidableEq, Repr

/-- The type assertion `v.(string)` in its two-result form; `none` is `ok == false`.
A key that is absent from the map yields the nil interface, for which the assertion fails. -/
def GoValue.assertString : Option GoValue → Option String
  | some (GoValue.string s) => some s
  | _ => none

/-- A `float64`, as its IEEE-754 binary64 bit pattern. -/
structure Float64 where
  bits : Nat
  deriving DecidableEq, Repr

/-- Neither NaN nor an infinity: the 11 exponent bits are not all ones. -/
def Float64.isFinite (f : Float64) : Bool :=
  (f.bits / 2 ^ 52) % 2 ^ 11 != 2 ^ 11 - 1

/-- Go slice: `none` is `nil`. -/
abbrev GoSlice (α : Type) := Option (List α)

/-- The builtin `append(s, x)`; appending to the nil slice allocates. -/
def GoSlice.append {α : Type} (s : GoSlice α) (x : α) : GoSlice α :=
  match s with
  | none => some [x]
  | some xs => some (xs ++ [x])

/-- The elements of a slice; the nil slice has none. -/
def GoSlice.elems {α : Type} (s : GoSlice α) : List α :=
  match s with
  | none => []
  | some xs => xs

/-! ## JSON documents and `encoding/json` -/

/-- JSON documents as produced by `encoding/json`. Object members keep their order. -/
inductive Json where
  | null
  | int (n : Int)
  | float (f : Float64)
  | str (s : String)
  | arr (items : List Json)
  | obj (members : List (String × Json))
  deriving Repr

/-- Struct untuk representasi item riwayat yang akan dikirim ke frontend. -/
structure HistoryResponseItem where
  ID : Int
  Brand : String
  NamaPerangkat : String
  Daya : Float64
  Durasi : Float64
  TanggalInput : String
  CategoryID : Int
  CategoryName : String
  deriving DecidableEq, Repr

/-- The zero value `var item HistoryResponseItem`. -/
def HistoryResponseItem.zero : HistoryResponseItem :=
  { ID := 0, Brand := "", NamaPerangkat := "", Daya := ⟨0⟩, Durasi := ⟨0⟩,
    TanggalInput := "", CategoryID := 0, CategoryName := "" }

/-- The JSON object of one item: members in field declaration order, named by the `json` tags. -/
def HistoryResponseItem.toJson (item : HistoryResponseItem) : Json :=
  Json.obj
    [ ("id", Json.int item.ID),
      ("brand", Json.str item.Brand),
      ("nama_perangkat", Json.str item.NamaPerangkat),
      ("daya", Json.float item.Daya),
      ("durasi", Json.float item.Durasi),
      ("tanggal_input", Json.str item.TanggalInput),
      ("category_id", Json.int item.CategoryID),
      ("category_name", Json.str item.CategoryName) ]

/-- Whether `encoding/json` can encode the item: NaN and infinities are unsupported values. -/
def HistoryResponseItem.encodable (item : HistoryResponseItem) : Bool :=
  item.Daya.isFinite && item.Durasi.isFinite

/-- The document `json.Marshal` gives for a `[]HistoryResponseItem`: a nil slice encodes as
`null`, any other slice as an array; `none` is the `UnsupportedValueError`. -/
def marshalHistory (history : GoSlice HistoryResponseItem) : Option Json :=
  match history with
  | none => some Json.null
  | some items =>
    if items.all HistoryResponseItem.encodable then
      some (Json.arr (items.map HistoryResponseItem.toJson))
    else none

/-! ## `net/http` -/

/-- The part of `*http.Request` the handler reads. -/
structure Request where
  Method : String
  deriving DecidableEq, Repr

/-- The constant `http.MethodGet`. -/
def MethodGet : String := "GET"

def StatusOK : Nat := 200
def StatusUnauthorized : Nat := 401
def StatusMethodNotAllowed : Nat := 405
def StatusInternalServerError : Nat := 500

/-- One write to the response body. `json j` stands for the text of `j` followed by a newline,
as `Encoder.Encode` writes it. -/
inductive Chunk where
  | text (s : String)
  | json (j : Json)
  deriving Repr

/-- State of an `http.ResponseWriter`. `wroteHeader` lists the codes of all status lines sent. -/
structure ResponseWriter where
  header : List (String × String)
  wroteHeader : List Nat
  body : List Chunk
  deriving Repr

/-- A fresh writer, as the server hands it to the handler. -/
def ResponseWriter.new : ResponseWriter :=
  { header := [], wroteHeader := [], body := [] }

/-- The call `w.Header().Set(key, value)`. -/
def ResponseWriter.setHeader (w : ResponseWriter) (key value : String) : ResponseWriter :=
  { w with header := (w.header.filter fun kv => kv.1 != key) ++ [(key, value)] }

/-- The call `w.WriteHeader(code)`. -/
def ResponseWriter.WriteHeader (w : ResponseWriter) (code : Nat) : ResponseWriter :=
  { w with wroteHeader := w.wroteHeader ++ [code] }

/-- The call `w.Write(..)`: sends an implicit 200 status line when none was sent yet. -/
def ResponseWriter.Write (w : ResponseWriter) (c : Chunk) : ResponseWriter :=
  let w1 := if w.wroteHeader.isEmpty then w.WriteHeader StatusOK else w
  { w1 with body := w1.body ++ [c] }

/-- The status of the response: the code of the first status line. -/
def ResponseWriter.status (w : ResponseWriter) : Option Nat :=
  w.wroteHeader.head?

/-- The function `http.Error(w, error, code)`: plain-text headers, the status line,
then `fmt.Fprintln(w, error)`. -/
def httpError (w : ResponseWriter) (error : String) (code : Nat) : ResponseWriter :=
  let w1 := w.setHeader "Content-Type" "text/plain; charset=utf-8"
  let w2 := w1.setHeader "X-Content-Type-Options" "nosniff"
  let w3 := w2.WriteHeader code
  w3.Write (Chunk.text (error ++ "\n"))

/-- The call `json.NewEncoder(w).Encode(history)`: nothing is written when marshalling fails
(the handler drops the returned error). -/
def encodeHistory (w : ResponseWriter) (history : GoSlice HistoryResponseItem) : ResponseWriter :=
  match marshalHistory history with
  | some j => w.Write (Chunk.json j)
  | none => w

/-! ## Sessions and the data store, as the handler sees them -/

/-- A `*sessions.Session`: the handler reads `session.Values`. -/
structure Session where
  Values : List (GoValue × GoValue)
  deriving Repr

/-- The name of the session cookie. -/
def sessionName : String := "elektronik_rumah_session"

/-- The statement `username, ok := session.Values["username"].(string)`; `none` is `!ok`. -/
def Session.username (session : Session) : Option String :=
  GoValue.assertString (session.Values.lookup (GoValue.string "username"))

/-- The columns of one result row of the history query, in `SELECT` order, as `rows.Scan`
converts them for the destinations `(*int, *string, *string, *float64, *float64, *string,
*int, *string)`. -/
abbrev Columns := Int × String × String × Float64 × Float64 × String × Int × String

/-- The cursor `*sql.Rows` of the history query. Each entry of `scans` is one iteration in which
`rows.Next()` returned true, with what `rows.Scan` does there: the converted columns or its
error. `err` is what `rows.Err()` reports once `rows.Next()` has returned false. -/
structure Rows where
  scans : List (Except String Columns)
  err : Option String

/-- The collaborators reached through the package-level `Store` and `db.DB`. -/
structure Env where
  /-- The call `Store.Get(r, name)`. -/
  StoreGet : Request → String → Except String Session
  /-- The call `db.DB.QueryRow(query, username).Scan(&userID)`. -/
  QueryRowScan : String → String → Except String Int
  /-- The call `db.DB.Query(query, userID)`. -/
  Query : String → Int → Except String Rows

/-- Calls made on `db.DB` and on the cursor it returns. -/
inductive StoreOp where
  | QueryRow (query : String) (arg : String)
  | Query (query : String) (arg : Int)
  | RowsClose
  deriving DecidableEq, Repr

/-- What one invocation of the handler does: the response, the log lines, the store calls. -/
structure Outcome where
  w : ResponseWriter
  log : List String
  ops : List StoreOp

/-- The statement of the user lookup. -/
def selectUserSQL : String := "SELECT user_id FROM users WHERE username = ?"

/-- The statement of the history query. -/
def selectHistorySQL : String :=
  "\n\t\tSELECT rp.id, rp.nama_perangkat, rp.merek, rp.daya, rp.durasi, rp.tanggal_input, k.kategori_id, k.nama_kategori\n\t\tFROM riwayat_perangkat rp\n\t\tJOIN kategori k ON rp.kategori_id = k.kategori_id\n\t\tWHERE rp.user_id = ?"

/-! ## The handler -/

/-- One iteration of the scan loop on a row that scans: `rows.Scan` fills, by position,
`&item.ID, &item.NamaPerangkat, &item.Brand, &item.Daya, &item.Durasi, &item.TanggalInput,
&categoryID, &categoryName`; then the two category fields are set from the locals. -/
def scanItem (cols : Columns) : HistoryResponseItem :=
  match cols with
  | (c1, c2, c3, c4, c5, c6, c7, c8) =>
    let item := HistoryResponseItem.zero
    let item := { item with ID := c1, NamaPerangkat := c2, Brand := c3, Daya := c4,
                            Durasi := c5, TanggalInput := c6 }
    let categoryID := c7
    let categoryName := c8
    let item := { item with CategoryID := categoryID }
    { item with CategoryName := categoryName }

/-- The loop `for rows.Next() { ... }`: stops with the error of the first row that fails to
scan, otherwise appends every item to `history`. -/
def scanLoop : List (Except String Columns) → GoSlice HistoryResponseItem →
    Except String (GoSlice HistoryResponseItem)
  | [], history => Except.ok history
  | Except.error err :: _, _ => Except.error err
  | Except.ok cols :: rest, history => scanLoop rest (history.append (scanItem cols))

def msgSession : String := "\x7b\"error\": \"Gagal mendapatkan sesi\"\x7d"
def msgUnauthenticated : String := "\x7b\"error\": \"Tidak terautentikasi\"\x7d"
def msgUserID : String := "\x7b\"error\": \"Gagal mengambil user ID\"\x7d"
def msgMethod : String := "Metode tidak diizinkan"
def msgQuery : String := "\x7b\"error\": \"Gagal mengambil data riwayat\"\x7d"
def msgScan : String := "\x7b\"error\": \"Gagal membaca data riwayat\"\x7d"

/-- The handler `GetDeviceHistoryHandler(w, r)`. -/
def GetDeviceHistoryHandler (env : Env) (r : Request) : Outcome :=
  let w := ResponseWriter.new
  match env.StoreGet r sessionName with
  | Except.error err =>
    { w := httpError w msgSession StatusInternalServerError,
      log := ["❌ Error getting session in GetDeviceHistoryHandler: " ++ err],
      ops := [] }
  | Except.ok session =>
  match session.username with
  | none =>
    { w := httpError w msgUnauthenticated StatusUnauthorized,
      log := ["❌ Unauthorized access to GetDeviceHistoryHandler: username not found in session"],
      ops := [] }
  | some username =>
  let ops := [StoreOp.QueryRow selectUserSQL username]
  match env.QueryRowScan selectUserSQL username with
  | Except.error err =>
    { w := httpError w msgUserID StatusInternalServerError,
      log := ["❌ Error getting user ID for username " ++ username ++ ": " ++ err],
      ops := ops }
  | Except.ok userID =>
  if r.Method ≠ MethodGet then
    { w := httpError w msgMethod StatusMethodNotAllowed, log := [], ops := ops }
  else
  let ops := ops ++ [StoreOp.Query selectHistorySQL userID]
  match env.Query selectHistorySQL userID with
  | Except.error err =>
    { w := httpError w msgQuery StatusInternalServerError,
      log := ["❌ Error executing query: " ++ err],
      ops := ops }
  | Except.ok rows =>
  -- `defer rows.Close()` runs on each of the exits below
  let ops := ops ++ [StoreOp.RowsClose]
  match scanLoop rows.scans none with
  | Except.error err =>
    { w := httpError w msgScan StatusInternalServerError,
      log := ["❌ Error scanning row: " ++ err],
      ops := ops }
  | Except.ok history =>
  match rows.err with
  | some err =>
    { w := httpError w msgQuery StatusInternalServerError,
      log := ["❌ Error iterating over rows: " ++ err],
      ops := ops }
  | none =>
    let w := w.setHeader "Content-Type" "application/json"
    let w := w.WriteHeader StatusOK
    { w := encodeHistory w history, log := [], ops := ops }

/-! ## The relational store -/

/-- Modelled from the spec: the schema of table `users` is not part of the sources; a row has
`user_id` (integer, primary key) and `username` (string, unique). -/
structure User where
  user_id : Int
  username : String
  deriving DecidableEq, Repr

/-- Modelled from the spec: the schema of table `kategori` is not part of the sources; a row
has `kategori_id` (integer, primary key) and `nama_kategori` (string). -/
structure Category where
  kategori_id : Int
  nama_kategori : String
  deriving DecidableEq, Repr

/-- Modelled from the spec: the schema of table `riwayat_perangkat` is not part of the sources;
a usage record has `id`, the owning `user_id`, `nama_perangkat`, `merek`, `daya`, `durasi`,
`tanggal_input` and the foreign key `kategori_id`. -/
structure UsageRecord where
  id : Int
  user_id : Int
  nama_perangkat : String
  merek : String
  daya : Float64
  durasi : Float64
  tanggal_input : String
  kategori_id : Int
  deriving DecidableEq, Repr

/-- A state of the three tables; rows are listed in the order the engine visits them. -/
structure Database where
  users : List User
  riwayat_perangkat : List UsageRecord
  kategori : List Category
  deriving Repr

/-- The error `sql.ErrNoRows`. -/
def ErrNoRows : String := "sql: no rows in result set"

/-- Whether an integer column value fits the 64-bit Go `int` that `Scan` fills. -/
def fitsInt (n : Int) : Bool :=
  decide (-9223372036854775808 ≤ n) && decide (n ≤ 9223372036854775807)

/-- The conversion `Scan` makes of an integer column for a `*int` destination: a value outside
the range of `int` is a scan error. -/
def scanInt (n : Int) : Except String Int :=
  if fitsInt n then Except.ok n else Except.error "sql: Scan error: value out of range"

/-- The statement `SELECT user_id FROM users WHERE username = ?` run through `QueryRow`, then
`Scan(&userID)`: the first matching row, converted to `int`, or `sql.ErrNoRows`. -/
def Database.selectUserID (db : Database) (username : String) : Except String Int :=
  match db.users.find? (fun u => u.username == username) with
  | some u => scanInt u.user_id
  | none => Except.error ErrNoRows

/-- The statement of the history query: `riwayat_perangkat rp JOIN kategori k ON
rp.kategori_id = k.kategori_id WHERE rp.user_id = ?`, projected on the eight selected
columns. -/
def Database.selectHistory (db : Database) (userID : Int) : List Columns :=
  let joined := db.riwayat_perangkat.flatMap fun rp =>
    (db.kategori.filter fun k => rp.kategori_id == k.kategori_id).map fun k => (rp, k)
  let selected := joined.filter fun p => p.1.user_id == userID
  selected.map fun p =>
    (p.1.id, p.1.nama_perangkat, p.1.merek, p.1.daya, p.1.durasi, p.1.tanggal_input,
     p.2.kategori_id, p.2.nama_kategori)

/-- The call `rows.Scan` on one row of the history query: the two integer columns, `rp.id` and
`k.kategori_id`, must fit the `*int` destinations; the text and float columns convert as they
are. -/
def scanColumns (cols : Columns) : Except String Columns :=
  match cols with
  | (c1, _, _, _, _, _, c7, _) =>
    if fitsInt c1 && fitsInt c7 then Except.ok cols
    else Except.error "sql: Scan error: value out of range"

/-- The collaborators backed by a session store and a healthy database: statements execute and
the cursor reports no error; a row fails to scan when an integer column does not fit `int`. -/
def Database.env (db : Database) (store : Request → String → Except String Session) : Env :=
  { StoreGet := store,
    QueryRowScan := fun query username =>
      if query = selectUserSQL then db.selectUserID username
      else Except.error "unsupported statement",
    Query := fun query userID =>
      if query = selectHistorySQL then
        Except.ok { scans := (db.selectHistory userID).map scanColumns, err := none }
      else Except.error "unsupported statement" }

/-! ## Recognising the error body `{"error": "<message>"}` -/

/-- JSON insignificant whitespace: space, tab, line feed, carriage return. -/
def isJsonSpace (c : Char) : Bool :=
  c.toNat == 32 || c.toNat == 9 || c.toNat == 10 || c.toNat == 13

/-- Drops leading JSON whitespace. -/
def skipSpace : List Char → List Char
  | [] => []
  | c :: cs => if isJsonSpace c then skipSpace cs else c :: cs

/-- The value of a hexadecimal digit. -/
def hexValue (c : Char) : Option Nat :=
  let n := c.toNat
  if 48 ≤ n ∧ n ≤ 57 then some (n - 48)
  else if 65 ≤ n ∧ n ≤ 70 then some (n - 55)
  else if 97 ≤ n ∧ n ≤ 102 then some (n - 87)
  else none

/-- The character a one-letter escape stands for: one of `" \ / b f n r t`. -/
def escapeValue (c : Char) : Option Char :=
  let n := c.toNat
  if n = 34 ∨ n = 92 ∨ n = 47 then some c
  else if n = 98 then some (Char.ofNat 8)
  else if n = 102 then some (Char.ofNat 12)
  else if n = 110 then some (Char.ofNat 10)
  else if n = 114 then some (Char.ofNat 13)
  else if n = 116 then some (Char.ofNat 9)
  else none

/-- States of the scanner of a JSON string, after its opening quote. -/
inductive StrState where
  | plain
  | escape
  | hex (left : Nat) (acc : Nat)

/-- Reads a JSON string after its opening quote: the decoded characters (in reverse in `acc`)
and the input after the closing quote; `none` when the string is malformed. -/
def readString : StrState → List Char → List Char → Option (List Char × List Char)
  | _, _, [] => none
  | StrState.plain, acc, c :: cs =>
    if c.toNat = 34 then some (acc.reverse, cs)
    else if c.toNat = 92 then readString StrState.escape acc cs
    else if c.toNat < 32 then none
    else readString StrState.plain (c :: acc) cs
  | StrState.escape, acc, c :: cs =>
    if c.toNat = 117 then readString (StrState.hex 4 0) acc cs
    else match escapeValue c with
      | some d => readString StrState.plain (d :: acc) cs
      | none => none
  | StrState.hex left v, acc, c :: cs =>
    match hexValue c with
    | none => none
    | some d =>
      if left ≤ 1 then readString StrState.plain (Char.ofNat (16 * v + d) :: acc) cs
      else readString (StrState.hex (left - 1) (16 * v + d)) acc cs

/-- Reads optional whitespace, then a JSON string. -/
def readQuoted (cs : List Char) : Option (List Char × List Char) :=
  match skipSpace cs with
  | c :: rest => if c.toNat = 34 then readString StrState.plain [] rest else none
  | [] => none

/-- Reads optional whitespace, then the one character with code `n`. -/
def readChar (n : Nat) (cs : List Char) : Option (List Char) :=
  match skipSpace cs with
  | c :: rest => if c.toNat = n then some rest else none
  | [] => none

/-- The message of a text that is one JSON object with the single member `error` holding a
string: `{ "error" : "<message>" }`, whitespace allowed around the tokens. -/
def errorObjectMessage (s : String) : Option String := do
  let r1 ← readChar 123 s.toList
  let (key, r2) ← readQuoted r1
  if key ≠ "error".toList then none
  let r3 ← readChar 58 r2
  let (msg, r4) ← readQuoted r3
  let r5 ← readChar 125 r4
  if skipSpace r5 = [] then some (String.mk msg) else none

/-- The message of a response body that is a single JSON object `{"error": "<message>"}`. -/
def errorBodyMessage (body : List Chunk) : Option String :=
  match body with
  | [Chunk.text s] => errorObjectMessage s
  | [Chunk.json (Json.obj [(key, Json.str msg)])] => if key = "error" then some msg else none
  | _ => none

/-! ## Specification-side notions -/

/-- The projection the specification describes: the fields of a usage record together with the
id and name of its category. -/
def projectRecord (rp : UsageRecord) (k : Category) : HistoryResponseItem :=
  { ID := rp.id, Brand := rp.merek, NamaPerangkat := rp.nama_perangkat, Daya := rp.daya,
    Durasi := rp.durasi, TanggalInput := rp.tanggal_input,
    CategoryID := k.kategori_id, CategoryName := k.nama_kategori }

/-- The history the specification promises to user `userID`: one item for each usage record,
in table order, that belongs to the user and has a category row with its `kategori_id`. -/
def expectedHistory (db : Database) (userID : Int) : List HistoryResponseItem :=
  db.riwayat_perangkat.filterMap fun rp =>
    if rp.user_id = userID then
      (db.kategori.find? fun k => k.kategori_id == rp.kategori_id).map (projectRecord rp)
    else none

/-- The steps of the handler at which a collaborator can report an error. -/
inductive Step where
  | session
  | userLookup
  | query
  | scan
  | iteration
  deriving DecidableEq, Repr

/-- The run of the handler on `env` and `r` fails at `step`, the collaborator reporting `err`. -/
def FailsAt (env : Env) (r : Request) (step : Step) (err : String) : Prop :=
  match step with
  | Step.session => env.StoreGet r sessionName = Except.error err
  | Step.userLookup =>
    ∃ session username,
      env.StoreGet r sessionName = Except.ok session ∧ session.username = some username ∧
      env.QueryRowScan selectUserSQL username = Except.error err
  | Step.query =>
    ∃ session username userID,
      env.StoreGet r sessionName = Except.ok session ∧ session.username = some username ∧
      env.QueryRowScan selectUserSQL username = Except.ok userID ∧ r.Method = MethodGet ∧
      env.Query selectHistorySQL userID = Except.error err
  | Step.scan =>
    ∃ session username userID rows pre post,
      env.StoreGet r sessionName = Except.ok session ∧ session.username = some username ∧
      env.QueryRowScan selectUserSQL username = Except.ok userID ∧ r.Method = MethodGet ∧
      env.Query selectHistorySQL userID = Except.ok rows ∧
      rows.scans = List.map Except.ok pre ++ Except.error err :: post
  | Step.iteration =>
    ∃ session username userID rows cols,
      env.StoreGet r sessionName = Except.ok session ∧ session.username = some username ∧
      env.QueryRowScan selectUserSQL username = Except.ok userID ∧ r.Method = MethodGet ∧
      env.Query selectHistorySQL userID = Except.ok rows ∧
      rows.scans = List.map Except.ok cols ∧ rows.err = some err

/-- The error text the handler sends for a failure at `step`. -/
def stepMessage : Step → String
  | Step.session => msgSession
  | Step.userLookup => msgUserID
  | Step.query => msgQuery
  | Step.scan => msgScan
  | Step.iteration => msgQuery

/-- Every step of the request succeeds: the session is acquired, its `username` is a string,
the user lookup returns a row, the method is GET, the history query executes, every row scans
and the cursor reports no error. -/
def Succeeds (env : Env) (r : Request) : Prop :=
  ∃ session username userID rows,
    env.StoreGet r sessionName = Except.ok session ∧ session.username = some username ∧
    env.QueryRowScan selectUserSQL username = Except.ok userID ∧ r.Method = MethodGet ∧
    env.Query selectHistorySQL userID = Except.ok rows ∧
    (∀ s ∈ rows.scans, ∃ cols, s = Except.ok cols) ∧ rows.err = none

/-! ## Sample requests, sessions and stores -/

def getRequest : Request := { Method := "GET" }

def postRequest : Request := { Method := "POST" }

/-- A session of the logged-in user `alice`. -/
def aliceSession : Session :=
  { Values := [(GoValue.string "username", GoValue.string "alice")] }

/-- A session without `username`. -/
def anonymousSession : Session := { Values := [] }

/-- A session whose `username` is not a string. -/
def numericSession : Session :=
  { Values := [(GoValue.string "username", GoValue.int 7)] }

/-- A session store that returns `session` for every request. -/
def storeWith (session : Session) : Request → String → Except String Session :=
  fun _ _ => Except.ok session

/-- A session store that fails with `err`. -/
def storeDown (err : String) : Request → String → Except String Session :=
  fun _ _ => Except.error err

/-- Collaborators with fixed answers. -/
def fixedEnv (store : Request → String → Except String Session) (lookup : Except String Int)
    (query : Except String Rows) : Env :=
  { StoreGet := store, QueryRowScan := fun _ _ => lookup, Query := fun _ _ => query }

/-- The `float64` 1.5. -/
def f1_5 : Float64 := { bits := 4609434218613702656 }

/-- The `float64` 2.0. -/
def f2_0 : Float64 := { bits := 4611686018427387904 }

/-- Two users, two categories, four usage records: two of `alice` with a category, one of
`alice` whose `kategori_id` matches no category, one of `bob`. -/
def sampleDB : Database :=
  { users := [{ user_id := 1, username := "alice" }, { user_id := 2, username := "bob" }],
    kategori := [{ kategori_id := 10, nama_kategori := "Dapur" },
                 { kategori_id := 20, nama_kategori := "Lampu" }],
    riwayat_perangkat :=
      [{ id := 100, user_id := 1, nama_perangkat := "Kulkas", merek := "Sharp", daya := f1_5,
         durasi := f2_0, tanggal_input := "2024-05-01", kategori_id := 10 },
       { id := 101, user_id := 2, nama_perangkat := "Lampu teras", merek := "Philips",
         daya := f2_0, durasi := f1_5, tanggal_input := "2024-05-02", kategori_id := 20 },
       { id := 102, user_id := 1, nama_perangkat := "Kipas", merek := "Cosmos", daya := f1_5,
         durasi := f1_5, tanggal_input := "2024-05-03", kategori_id := 99 },
       { id := 103, user_id := 1, nama_perangkat := "Lampu kamar", merek := "Hannochs",
         daya := f2_0, durasi := f2_0, tanggal_input := "2024-05-04", kategori_id := 20 }] }

/-- The user `alice` exists and has no usage record. -/
def emptyHistoryDB : Database :=
  { users := [{ user_id := 1, username := "alice" }],
    kategori := [{ kategori_id := 10, nama_kategori := "Dapur" }],
    riwayat_perangkat := [] }

/-- The users `alice` and `bob`; the only usage record belongs to `bob`. -/
def otherUserOnlyDB : Database :=
  { users := [{ user_id := 1, username := "alice" }, { user_id := 2, username := "bob" }],
    kategori := [{ kategori_id := 10, nama_kategori := "Dapur" }],
    riwayat_perangkat :=
      [{ id := 200, user_id := 2, nama_perangkat := "Setrika", merek := "Miyako", daya := f1_5,
         durasi := f2_0, tanggal_input := "2024-06-01", kategori_id := 10 }] }

/-- One row of the history query. -/
def sampleRow : Columns :=
  (100, "Kulkas", "Sharp", f1_5, f2_0, "2024-05-01", 10, "Dapur")

/-! ## The exits of the handler -/

theorem handler_session_error {env : Env} {r : Request} {err : String}
    (hs : env.StoreGet r sessionName = Except.error err) :
    GetDeviceHistoryHandler env r =
      { w := httpError ResponseWriter.new msgSession StatusInternalServerError,
        log := ["❌ Error getting session in GetDeviceHistoryHandler: " ++ err],
        ops := [] } := by
  simp only [GetDeviceHistoryHandler, hs]

theorem handler_unauthenticated {env : Env} {r : Request} {session : Session}
    (hs : env.StoreGet r sessionName = Except.ok session) (hu : session.username = none) :
    GetDeviceHistoryHandler env r =
      { w := httpError ResponseWriter.new msgUnauthenticated StatusUnauthorized,
        log := ["❌ Unauthorized access to GetDeviceHistoryHandler: username not found in session"],
        ops := [] } := by
  simp only [GetDeviceHistoryHandler, hs, hu]

theorem handler_user_error {env : Env} {r : Request} {session : Session}
    {username err : String}
    (hs : env.StoreGet r sessionName = Except.ok session)
    (hu : session.username = some username)
    (hid : env.QueryRowScan selectUserSQL username = Except.error err) :
    GetDeviceHistoryHandler env r =
      { w := httpError ResponseWriter.new msgUserID StatusInternalServerError,
        log := ["❌ Error getting user ID for username " ++ username ++ ": " ++ err],
        ops := [StoreOp.QueryRow selectUserSQL username] } := by
  simp only [GetDeviceHistoryHandler, hs, hu, hid]

theorem handler_method_not_allowed {env : Env} {r : Request} {session : Session}
    {username : String} {userID : Int}
    (hs : env.StoreGet r sessionName = Except.ok session)
    (hu : session.username = some username)
    (hid : env.QueryRowScan selectUserSQL username = Except.ok userID)
    (hm : r.Method ≠ MethodGet) :
    GetDeviceHistoryHandler env r =
      { w := httpError ResponseWriter.new msgMethod StatusMethodNotAllowed,
        log := [],
        ops := [StoreOp.QueryRow selectUserSQL username] } := by
  simp only [GetDeviceHistoryHandler, hs, hu, hid, hm, if_true, ne_eq, not_false_eq_true]

theorem handler_query_error {env : Env} {r : Request} {session : Session}
    {username err : String} {userID : Int}
    (hs : env.StoreGet r sessionName = Except.ok session)
    (hu : session.username = some username)
    (hid : env.QueryRowScan selectUserSQL username = Except.ok userID)
    (hm : r.Method = MethodGet)
    (hq : env.Query selectHistorySQL userID = Except.error err) :
    GetDeviceHistoryHandler env r =
      { w := httpError ResponseWriter.new msgQuery StatusInternalServerError,
        log := ["❌ Error executing query: " ++ err],
        ops := [StoreOp.QueryRow selectUserSQL username,
                StoreOp.Query selectHistorySQL userID] } := by
  simp [GetDeviceHistoryHandler, hs, hu, hid, hm, hq]

theorem handler_scan_error {env : Env} {r : Request} {session : Session}
    {username err : String} {userID : Int} {rows : Rows}
    (hs : env.StoreGet r sessionName = Except.ok session)
    (hu : session.username = some username)
    (hid : env.QueryRowScan selectUserSQL username = Except.ok userID)
    (hm : r.Method = MethodGet)
    (hq : env.Query selectHistorySQL userID = Except.ok rows)
    (hscan : scanLoop rows.scans none = Except.error err) :
    GetDeviceHistoryHandler env r =
      { w := httpError ResponseWriter.new msgScan StatusInternalServerError,
        log := ["❌ Error scanning row: " ++ err],
        ops := [StoreOp.QueryRow selectUserSQL username,
                StoreOp.Query selectHistorySQL userID, StoreOp.RowsClose] } := by
  simp [GetDeviceHistoryHandler, hs, hu, hid, hm, hq, hscan]

theorem handler_iteration_error {env : Env} {r : Request} {session : Session}
    {username err : String} {userID : Int} {rows : Rows}
    {history : GoSlice HistoryResponseItem}
    (hs : env.StoreGet r sessionName = Except.ok session)
    (hu : session.username = some username)
    (hid : env.QueryRowScan selectUserSQL username = Except.ok userID)
    (hm : r.Method = MethodGet)
    (hq : env.Query selectHistorySQL userID = Except.ok rows)
    (hscan : scanLoop rows.scans none = Except.ok history)
    (herr : rows.err = some err) :
    GetDeviceHistoryHandler env r =
      { w := httpError ResponseWriter.new msgQuery StatusInternalServerError,
        log := ["❌ Error iterating over rows: " ++ err],
        ops := [StoreOp.QueryRow selectUserSQL username,
                StoreOp.Query selectHistorySQL userID, StoreOp.RowsClose] } := by
  simp [GetDeviceHistoryHandler, hs, hu, hid, hm, hq, hscan, herr]

theorem handler_success {env : Env} {r : Request} {session : Session}
    {username : String} {userID : Int} {rows : Rows}
    {history : GoSlice HistoryResponseItem}
    (hs : env.StoreGet r sessionName = Except.ok session)
    (hu : session.username = some username)
    (hid : env.QueryRowScan selectUserSQL username = Except.ok userID)
    (hm : r.Method = MethodGet)
    (hq : env.Query selectHistorySQL userID = Except.ok rows)
    (hscan : scanLoop rows.scans none = Except.ok history)
    (herr : rows.err = none) :
    GetDeviceHistoryHandler env r =
      { w := encodeHistory
          ((ResponseWriter.new.setHeader "Content-Type" "application/json").WriteHeader StatusOK)
          history,
        log := [],
        ops := [StoreOp.QueryRow selectUserSQL username,
                StoreOp.Query selectHistorySQL userID, StoreOp.RowsClose] } := by
  simp [GetDeviceHistoryHandler, hs, hu, hid, hm, hq, hscan, herr]

/-! ## Facts about the writer and the scan loop -/

theorem httpError_status (msg : String) (code : Nat) :
    (httpError ResponseWriter.new msg code).status = some code := rfl

theorem httpError_wroteHeader (msg : String) (code : Nat) :
    (httpError ResponseWriter.new msg code).wroteHeader = [code] := rfl

theorem httpError_body (msg : String) (code : Nat) :
    (httpError ResponseWriter.new msg code).body = [Chunk.text (msg ++ "\n")] := rfl

theorem encodeHistory_wroteHeader (history : GoSlice HistoryResponseItem) :
    (encodeHistory
      ((ResponseWriter.new.setHeader "Content-Type" "application/json").WriteHeader StatusOK)
      history).wroteHeader = [StatusOK] := by
  unfold encodeHistory
  cases marshalHistory history <;> rfl

theorem encodeHistory_body {history : GoSlice HistoryResponseItem} {doc : Json}
    (h : marshalHistory history = some doc) :
    (encodeHistory
      ((ResponseWriter.new.setHeader "Content-Type" "application/json").WriteHeader StatusOK)
      history).body = [Chunk.json doc] := by
  unfold encodeHistory
  rw [h]
  rfl

theorem scanLoop_error_at (pre : List Columns) (err : String)
    (post : List (Except String Columns)) (history : GoSlice HistoryResponseItem) :
    scanLoop (pre.map Except.ok ++ Except.error err :: post) history = Except.error err := by
  induction pre generalizing history with
  | nil => rfl
  | cons c cs ih => exact ih _

theorem scanLoop_some (cols : List Columns) (items : List HistoryResponseItem) :
    scanLoop (cols.map Except.ok) (some items) = Except.ok (some (items ++ cols.map scanItem)) := by
  induction cols generalizing items with
  | nil => simp [scanLoop]
  | cons c cs ih =>
    simp only [List.map_cons, scanLoop, GoSlice.append]
    rw [ih]
    simp

theorem scanLoop_nil (history : GoSlice HistoryResponseItem) :
    scanLoop [] history = Except.ok history := rfl

theorem scanLoop_cons_none (c : Columns) (cols : List Columns) :
    scanLoop ((c :: cols).map Except.ok) none = Except.ok (some ((c :: cols).map scanItem)) := by
  simp only [List.map_cons, scanLoop, GoSlice.append]
  rw [scanLoop_some]
  simp

/-- The loop, started on the nil slice, buffers the items of all rows, in order. -/
theorem scanLoop_elems (cols : List Columns) :
    ∃ history, scanLoop (cols.map Except.ok) none = Except.ok history ∧
      GoSlice.elems history = cols.map scanItem := by
  cases cols with
  | nil => exact ⟨none, rfl, rfl⟩
  | cons c cs => exact ⟨_, scanLoop_cons_none c cs, rfl⟩

/-- The loop ends without error exactly when every row scans. -/
theorem scanLoop_ok_iff (scans : List (Except String Columns))
    (history : GoSlice HistoryResponseItem) :
    (∃ result, scanLoop scans history = Except.ok result) ↔
      ∀ s ∈ scans, ∃ cols, s = Except.ok cols := by
  induction scans generalizing history with
  | nil =>
    constructor
    · intro _ s hs
      cases hs
    · intro _
      exact ⟨history, rfl⟩
  | cons s rest ih =>
    cases s with
    | error e =>
      constructor
      · rintro ⟨result, h⟩
        cases h
      · intro h
        obtain ⟨cols, hc⟩ := h _ (List.mem_cons_self _ _)
        cases hc
    | ok c =>
      have step : scanLoop (Except.ok c :: rest) history =
          scanLoop rest (history.append (scanItem c)) := rfl
      rw [step, ih]
      constructor
      · intro h s hs
        rcases List.mem_cons.mp hs with rfl | hs
        · exact ⟨c, rfl⟩
        · exact h s hs
      · intro h s hs
        exact h s (List.mem_cons_of_mem _ hs)

/-! ## The method check -/

/-- C1 (as stated, refuted): three requests whose method is POST are not answered with 405:
when session acquisition fails the status is 500, when the session has no string `username`
it is 401, and when the username resolves to no user row it is 500. -/
theorem C1_counterexample_earlier_checks_precede_method :
    postRequest.Method ≠ MethodGet ∧
    (GetDeviceHistoryHandler
        (sampleDB.env (storeDown "securecookie: the value is not valid")) postRequest).w.status
      = some 500 ∧
    (GetDeviceHistoryHandler (sampleDB.env (storeWith anonymousSession)) postRequest).w.status
      = some 401 ∧
    (GetDeviceHistoryHandler (emptyHistoryDB.env (storeWith
        { Values := [(GoValue.string "username", GoValue.string "carol")] })) postRequest).w.status
      = some 500 := by
  decide

/-- C1 (amended): for a request whose method is not GET the handler answers 405 once session
acquisition has succeeded, the session holds a string `username` and the user lookup has
returned a row; it answers 500 when session acquisition fails, 401 when the session has no
string `username`, and 500 when the user lookup fails. -/
theorem C1_method_not_allowed_after_user_resolution (env : Env) (r : Request)
    (hm : r.Method ≠ MethodGet) :
    (∀ session username userID,
      env.StoreGet r sessionName = Except.ok session → session.username = some username →
      env.QueryRowScan selectUserSQL username = Except.ok userID →
      (GetDeviceHistoryHandler env r).w.status = some 405) ∧
    (∀ err, env.StoreGet r sessionName = Except.error err →
      (GetDeviceHistoryHandler env r).w.status = some 500) ∧
    (∀ session, env.StoreGet r sessionName = Except.ok session → session.username = none →
      (GetDeviceHistoryHandler env r).w.status = some 401) ∧
    (∀ session username err,
      env.StoreGet r sessionName = Except.ok session → session.username = some username →
      env.QueryRowScan selectUserSQL username = Except.error err →
      (GetDeviceHistoryHandler env r).w.status = some 500) := by
  refine ⟨?_, ?_, ?_, ?_⟩
  · intro session username userID hs hu hid
    rw [handler_method_not_allowed hs hu hid hm]
    rfl
  · intro err hs
    rw [handler_session_error hs]
    rfl
  · intro session hs hu
    rw [handler_unauthenticated hs hu]
    rfl
  · intro session username err hs hu hid
    rw [handler_user_error hs hu hid]
    rfl

/-- C1 (amended), at a POST request of the logged-in user `alice`. -/
theorem C1_method_not_allowed_after_user_resolution_witness :
    postRequest.Method ≠ MethodGet ∧
    (GetDeviceHistoryHandler (sampleDB.env (storeWith aliceSession)) postRequest).w.status
      = some 405 :=
  ⟨by decide,
   (C1_method_not_allowed_after_user_resolution (sampleDB.env (storeWith aliceSession))
      postRequest (by decide)).1 aliceSession "alice" 1 rfl rfl rfl⟩

/-! ## The empty history -/

set_option maxRecDepth 8000 in
/-- C2 (code evaluated at the failing input): a GET request of `alice`, who exists and has no
usage record, is answered with status 200 and the JSON document `null`, not the empty array:
`history` is still the nil slice when it is encoded. -/
theorem C2_empty_history_encodes_null :
    (emptyHistoryDB.selectHistory 1 = []) ∧
    (GetDeviceHistoryHandler (emptyHistoryDB.env (storeWith aliceSession)) getRequest).w.status
      = some 200 ∧
    (GetDeviceHistoryHandler (emptyHistoryDB.env (storeWith aliceSession)) getRequest).w.body
      = [Chunk.json Json.null] ∧
    (GetDeviceHistoryHandler (emptyHistoryDB.env (storeWith aliceSession)) getRequest).w.body
      ≠ [Chunk.json (Json.arr [])] := by
  refine ⟨rfl, rfl, rfl, ?_⟩
  intro h
  have h2 : [Chunk.json Json.null] = [Chunk.json (Json.arr [])] := h
  simp at h2

/-! ## Sessions without identity -/

theorem username_none_of_not_string {session : Session}
    (h : ∀ u : String,
      session.Values.lookup (GoValue.string "username") ≠ some (GoValue.string u)) :
    session.username = none := by
  unfold Session.username
  cases hv : session.Values.lookup (GoValue.string "username") with
  | none => rfl
  | some v =>
    cases v with
    | string s => exact absurd hv (h s)
    | nil => rfl
    | int n => rfl
    | bool b => rfl
    | other t => rfl

/-- C3: when the session was acquired and its `username` value is absent or is not a string,
the handler answers with the single status 401 and makes no call on the data store: neither
the user lookup nor the history query is issued. -/
theorem C3_no_string_username_is_401_without_store_access (env : Env) (r : Request)
    (session : Session)
    (hs : env.StoreGet r sessionName = Except.ok session)
    (hu : ∀ u : String,
      session.Values.lookup (GoValue.string "username") ≠ some (GoValue.string u)) :
    (GetDeviceHistoryHandler env r).w.status = some 401 ∧
    (GetDeviceHistoryHandler env r).w.wroteHeader = [401] ∧
    (GetDeviceHistoryHandler env r).ops = [] := by
  rw [handler_unauthenticated hs (username_none_of_not_string hu)]
  exact ⟨rfl, rfl, rfl⟩

/-- C3, at a session whose `username` is the integer 7. -/
theorem C3_no_string_username_is_401_without_store_access_witness :
    (GetDeviceHistoryHandler (sampleDB.env (storeWith numericSession)) getRequest).w.status
      = some 401 ∧
    (GetDeviceHistoryHandler (sampleDB.env (storeWith numericSession)) getRequest).w.wroteHeader
      = [401] ∧
    (GetDeviceHistoryHandler (sampleDB.env (storeWith numericSession)) getRequest).ops = [] :=
  C3_no_string_username_is_401_without_store_access
    (sampleDB.env (storeWith numericSession)) getRequest numericSession rfl
    (by intro u h; cases h)

/-! ## The bodies sent through `http.Error` -/

theorem errorBody_msgSession :
    errorBodyMessage [Chunk.text (msgSession ++ "\n")] = some "Gagal mendapatkan sesi" := by
  decide

theorem errorBody_msgUnauthenticated :
    errorBodyMessage [Chunk.text (msgUnauthenticated ++ "\n")] = some "Tidak terautentikasi" := by
  decide

theorem errorBody_msgUserID :
    errorBodyMessage [Chunk.text (msgUserID ++ "\n")] = some "Gagal mengambil user ID" := by
  decide

theorem errorBody_msgQuery :
    errorBodyMessage [Chunk.text (msgQuery ++ "\n")] = some "Gagal mengambil data riwayat" := by
  decide

theorem errorBody_msgScan :
    errorBodyMessage [Chunk.text (msgScan ++ "\n")] = some "Gagal membaca data riwayat" := by
  decide

theorem errorBody_msgMethod :
    errorBodyMessage [Chunk.text (msgMethod ++ "\n")] = none := by
  decide

/-! ## Failures of the cursor -/

/-- C5: on a GET request whose history cursor fails after some rows were scanned and buffered
(a scan error on the next row, or `rows.Err()` non-nil after the loop), the handler answers
with status 500 and a fixed error object; the body is that object alone, so none of the
buffered items is in it. -/
theorem C5_cursor_failure_is_500_without_partial_array (env : Env) (r : Request)
    (session : Session) (username : String) (userID : Int) (rows : Rows)
    (hs : env.StoreGet r sessionName = Except.ok session)
    (hu : session.username = some username)
    (hid : env.QueryRowScan selectUserSQL username = Except.ok userID)
    (hm : r.Method = MethodGet)
    (hq : env.Query selectHistorySQL userID = Except.ok rows) :
    (∀ (pre : List Columns) (err : String) (post : List (Except String Columns)),
      rows.scans = List.map Except.ok pre ++ Except.error err :: post →
      (GetDeviceHistoryHandler env r).w.wroteHeader = [500] ∧
      (GetDeviceHistoryHandler env r).w.body = [Chunk.text (msgScan ++ "\n")] ∧
      errorBodyMessage (GetDeviceHistoryHandler env r).w.body
        = some "Gagal membaca data riwayat") ∧
    (∀ (cols : List Columns) (err : String),
      rows.scans = List.map Except.ok cols → rows.err = some err →
      (GetDeviceHistoryHandler env r).w.wroteHeader = [500] ∧
      (GetDeviceHistoryHandler env r).w.body = [Chunk.text (msgQuery ++ "\n")] ∧
      errorBodyMessage (GetDeviceHistoryHandler env r).w.body
        = some "Gagal mengambil data riwayat") := by
  constructor
  · intro pre err post hscans
    have hscan : scanLoop rows.scans none = Except.error err := by
      rw [hscans]
      exact scanLoop_error_at pre err post none
    rw [handler_scan_error hs hu hid hm hq hscan]
    exact ⟨rfl, rfl, errorBody_msgScan⟩
  · intro cols err hscans herr
    obtain ⟨history, hscan, _⟩ := scanLoop_elems cols
    rw [← hscans] at hscan
    rw [handler_iteration_error hs hu hid hm hq hscan herr]
    exact ⟨rfl, rfl, errorBody_msgQuery⟩

/-- C5, at a cursor whose second row fails to scan after one row was buffered. -/
theorem C5_cursor_failure_is_500_without_partial_array_witness :
    (GetDeviceHistoryHandler
        (fixedEnv (storeWith aliceSession) (Except.ok 1)
          (Except.ok { scans := [Except.ok sampleRow, Except.error "converting NULL to string"],
                       err := none }))
        getRequest).w.body = [Chunk.text (msgScan ++ "\n")] :=
  ((C5_cursor_failure_is_500_without_partial_array
      (fixedEnv (storeWith aliceSession) (Except.ok 1)
        (Except.ok { scans := [Except.ok sampleRow, Except.error "converting NULL to string"],
                     err := none }))
      getRequest aliceSession "alice" 1
      { scans := [Except.ok sampleRow, Except.error "converting NULL to string"], err := none }
      rfl rfl rfl rfl rfl).1 [sampleRow] "converting NULL to string" [] rfl).2.1

/-! ## Unknown users -/

/-- C6: when the session was acquired and holds a string `username`, and the user lookup fails
(no row, or an error of the store), the handler answers with status 500, not 404, whatever the
method is, and the only call on the data store is the user lookup: the history query is not
issued. -/
theorem C6_user_lookup_failure_is_500_without_history_query (env : Env) (r : Request)
    (session : Session) (username err : String)
    (hs : env.StoreGet r sessionName = Except.ok session)
    (hu : session.username = some username)
    (hid : env.QueryRowScan selectUserSQL username = Except.error err) :
    (GetDeviceHistoryHandler env r).w.wroteHeader = [500] ∧
    (GetDeviceHistoryHandler env r).w.status ≠ some 404 ∧
    (GetDeviceHistoryHandler env r).ops = [StoreOp.QueryRow selectUserSQL username] ∧
    (∀ query arg, StoreOp.Query query arg ∉ (GetDeviceHistoryHandler env r).ops) := by
  rw [handler_user_error hs hu hid]
  refine ⟨rfl, (by decide : some 500 ≠ some 404), rfl, ?_⟩
  intro query arg hmem
  simp at hmem

/-- C6, at a user table without a row for the session's username `alice`. -/
theorem C6_user_lookup_failure_is_500_without_history_query_witness :
    (GetDeviceHistoryHandler
        (({ users := [{ user_id := 2, username := "bob" }], riwayat_perangkat := [],
            kategori := [] } : Database).env (storeWith aliceSession))
        getRequest).w.wroteHeader = [500] :=
  (C6_user_lookup_failure_is_500_without_history_query
    (({ users := [{ user_id := 2, username := "bob" }], riwayat_perangkat := [],
        kategori := [] } : Database).env (storeWith aliceSession))
    getRequest aliceSession "alice" ErrNoRows rfl rfl rfl).1

/-! ## Error bodies -/

/-- C7 (code evaluated at the failing input): a POST request of the logged-in user `alice` is
answered with status 405 and the plain text `Metode tidak diizinkan`, which is not a JSON
object `{"error": "<message>"}`. -/
theorem C7_method_not_allowed_body_is_plain_text :
    (GetDeviceHistoryHandler (sampleDB.env (storeWith aliceSession)) postRequest).w.status
      = some 405 ∧
    (GetDeviceHistoryHandler (sampleDB.env (storeWith aliceSession)) postRequest).w.body
      = [Chunk.text "Metode tidak diizinkan\n"] ∧
    errorBodyMessage
      (GetDeviceHistoryHandler (sampleDB.env (storeWith aliceSession)) postRequest).w.body
      = none := by
  refine ⟨by decide, rfl, errorBody_msgMethod⟩

/-- The response of the handler is one of seven. -/
theorem handler_response_cases (env : Env) (r : Request) :
    (GetDeviceHistoryHandler env r).w
        = httpError ResponseWriter.new msgSession StatusInternalServerError ∨
    (GetDeviceHistoryHandler env r).w
        = httpError ResponseWriter.new msgUnauthenticated StatusUnauthorized ∨
    (GetDeviceHistoryHandler env r).w
        = httpError ResponseWriter.new msgUserID StatusInternalServerError ∨
    (GetDeviceHistoryHandler env r).w
        = httpError ResponseWriter.new msgMethod StatusMethodNotAllowed ∨
    (GetDeviceHistoryHandler env r).w
        = httpError ResponseWriter.new msgQuery StatusInternalServerError ∨
    (GetDeviceHistoryHandler env r).w
        = httpError ResponseWriter.new msgScan StatusInternalServerError ∨
    (∃ history, (GetDeviceHistoryHandler env r).w = encodeHistory
        ((ResponseWriter.new.setHeader "Content-Type" "application/json").WriteHeader StatusOK)
        history) := by
  cases hs : env.StoreGet r sessionName with
  | error err => rw [handler_session_error hs]; simp
  | ok session =>
  cases hu : session.username with
  | none => rw [handler_unauthenticated hs hu]; simp
  | some username =>
  cases hid : env.QueryRowScan selectUserSQL username with
  | error err => rw [handler_user_error hs hu hid]; simp
  | ok userID =>
  by_cases hm : r.Method = MethodGet
  · cases hq : env.Query selectHistorySQL userID with
    | error err => rw [handler_query_error hs hu hid hm hq]; simp
    | ok rows =>
    cases hscan : scanLoop rows.scans none with
    | error err => rw [handler_scan_error hs hu hid hm hq hscan]; simp
    | ok history =>
    cases herr : rows.err with
    | some err => rw [handler_iteration_error hs hu hid hm hq hscan herr]; simp
    | none =>
      rw [handler_success hs hu hid hm hq hscan herr]
      exact Or.inr (Or.inr (Or.inr (Or.inr (Or.inr (Or.inr ⟨history, rfl⟩)))))
  · rw [handler_method_not_allowed hs hu hid hm]; simp

/-- Every response with status 401 or 500 carries a single JSON object `{"error": "<message>"}`
as its body. -/
theorem error_object_on_401_and_500 (env : Env) (r : Request)
    (h : (GetDeviceHistoryHandler env r).w.status = some 401 ∨
         (GetDeviceHistoryHandler env r).w.status = some 500) :
    ∃ msg, errorBodyMessage (GetDeviceHistoryHandler env r).w.body = some msg := by
  rcases handler_response_cases env r with hw | hw | hw | hw | hw | hw | ⟨history, hw⟩
  · exact ⟨_, by rw [hw]; exact errorBody_msgSession⟩
  · exact ⟨_, by rw [hw]; exact errorBody_msgUnauthenticated⟩
  · exact ⟨_, by rw [hw]; exact errorBody_msgUserID⟩
  · rw [hw] at h
    rcases h with h | h <;> exact absurd h (by decide)
  · exact ⟨_, by rw [hw]; exact errorBody_msgQuery⟩
  · exact ⟨_, by rw [hw]; exact errorBody_msgScan⟩
  · rw [hw] at h
    have hst := encodeHistory_wroteHeader history
    simp only [ResponseWriter.status, hst] at h
    rcases h with h | h <;> exact absurd h (by decide)

/-! ## The projection of a row -/

theorem filter_kategori_eq_find (kategori : List Category) (a : Int)
    (hpk : (kategori.map Category.kategori_id).Nodup) :
    kategori.filter (fun k => a == k.kategori_id)
      = (kategori.find? fun k => k.kategori_id == a).toList := by
  induction kategori with
  | nil => rfl
  | cons x xs ih =>
    rw [List.map_cons, List.nodup_cons] at hpk
    obtain ⟨hx, hxs⟩ := hpk
    by_cases hax : a = x.kategori_id
    · have hnone : xs.filter (fun k => a == k.kategori_id) = [] := by
        rw [List.filter_eq_nil_iff]
        intro k hk hka
        apply hx
        have : a = k.kategori_id := by simpa using hka
        rw [← hax, this]
        exact List.mem_map_of_mem _ hk
      simp [List.filter_cons, List.find?_cons, hax, hnone] at *
      simpa [hax] using hnone
    · have hxa : ¬ x.kategori_id = a := fun h => hax h.symm
      simp [List.filter_cons, List.find?_cons, hax, hxa, ih hxs]

theorem scanItem_selected (rp : UsageRecord) (k : Category) :
    scanItem (rp.id, rp.nama_perangkat, rp.merek, rp.daya, rp.durasi, rp.tanggal_input,
      k.kategori_id, k.nama_kategori) = projectRecord rp k := rfl

/-- With `kategori_id` a key of `kategori`, the rows of the history query project to the
promised history. -/
theorem selectHistory_scanItem (db : Database) (userID : Int)
    (hpk : (db.kategori.map Category.kategori_id).Nodup) :
    (db.selectHistory userID).map scanItem = expectedHistory db userID := by
  unfold Database.selectHistory expectedHistory
  induction db.riwayat_perangkat with
  | nil => rfl
  | cons rp rest ih =>
    simp only [List.flatMap_cons, List.filter_append, List.map_append, List.filterMap_cons]
    simp only [] at ih
    rw [ih, filter_kategori_eq_find db.kategori rp.kategori_id hpk]
    cases hfind : db.kategori.find? (fun k => k.kategori_id == rp.kategori_id) with
    | none => by_cases hu : rp.user_id = userID <;> simp [hu]
    | some k => by_cases hu : rp.user_id = userID <;> simp [hu, scanItem_selected]

theorem env_QueryRowScan (db : Database) (store : Request → String → Except String Session)
    (username : String) :
    (db.env store).QueryRowScan selectUserSQL username = db.selectUserID username := by
  simp only [Database.env, if_true]

theorem env_Query (db : Database) (store : Request → String → Except String Session)
    (userID : Int) :
    (db.env store).Query selectHistorySQL userID
      = Except.ok { scans := (db.selectHistory userID).map scanColumns, err := none } := by
  simp only [Database.env, if_true]

theorem scanColumns_ok (rp : UsageRecord) (k : Category)
    (hid : fitsInt rp.id = true) (hk : fitsInt k.kategori_id = true) :
    scanColumns (rp.id, rp.nama_perangkat, rp.merek, rp.daya, rp.durasi, rp.tanggal_input,
        k.kategori_id, k.nama_kategori)
      = Except.ok (rp.id, rp.nama_perangkat, rp.merek, rp.daya, rp.durasi, rp.tanggal_input,
        k.kategori_id, k.nama_kategori) := by
  simp only [scanColumns, hid, hk, Bool.and_self, if_true]

/-- When the stored ids fit `int`, every row of the history query scans. -/
theorem selectHistory_scans (db : Database) (userID : Int)
    (hrp : ∀ rp ∈ db.riwayat_perangkat, fitsInt rp.id = true)
    (hk : ∀ k ∈ db.kategori, fitsInt k.kategori_id = true) :
    (db.selectHistory userID).map scanColumns = (db.selectHistory userID).map Except.ok := by
  apply List.map_congr_left
  intro cols hcols
  unfold Database.selectHistory at hcols
  simp only [List.mem_map, List.mem_filter, List.mem_flatMap] at hcols
  obtain ⟨p, ⟨⟨rp, hmem, k, ⟨hkmem, _⟩, hp⟩, _⟩, hcols⟩ := hcols
  rw [← hcols, ← hp]
  exact scanColumns_ok rp k (hrp rp hmem) (hk k hkmem)

theorem expectedHistory_encodable (db : Database) (userID : Int)
    (hfin : ∀ rp ∈ db.riwayat_perangkat, rp.daya.isFinite = true ∧ rp.durasi.isFinite = true) :
    (expectedHistory db userID).all HistoryResponseItem.encodable = true := by
  rw [List.all_eq_true]
  intro item hitem
  unfold expectedHistory at hitem
  rw [List.mem_filterMap] at hitem
  obtain ⟨rp, hrp, hsome⟩ := hitem
  by_cases hu : rp.user_id = userID
  · rw [if_pos hu] at hsome
    cases hfind : db.kategori.find? (fun k => k.kategori_id == rp.kategori_id) with
    | none => rw [hfind] at hsome; cases hsome
    | some k =>
      rw [hfind] at hsome
      simp only [Option.map_some', Option.some.injEq] at hsome
      rw [← hsome]
      have := hfin rp hrp
      simp [HistoryResponseItem.encodable, projectRecord, this.1, this.2]
  · rw [if_neg hu] at hsome
    cases hsome

theorem expectedHistory_length (db : Database) (userID : Int) :
    (expectedHistory db userID).length
      = db.riwayat_perangkat.countP fun rp =>
          rp.user_id == userID && db.kategori.any fun k => k.kategori_id == rp.kategori_id := by
  unfold expectedHistory
  induction db.riwayat_perangkat with
  | nil => rfl
  | cons rp rest ih =>
    rw [List.filterMap_cons, List.countP_cons]
    by_cases hu : rp.user_id = userID
    · cases hfind : db.kategori.find? (fun k => k.kategori_id == rp.kategori_id) with
      | none =>
        have hany : (db.kategori.any fun k => k.kategori_id == rp.kategori_id) = false := by
          rw [List.find?_eq_none] at hfind
          rw [List.any_eq_false]
          exact hfind
        simp [hu, hfind, hany, ih]
      | some k =>
        have hany : (db.kategori.any fun k => k.kategori_id == rp.kategori_id) = true := by
          rw [List.any_eq_true]
          exact ⟨k, List.mem_of_find?_eq_some hfind,
            List.find?_some (p := fun c : Category => c.kategori_id == rp.kategori_id) hfind⟩
        simp [hu, hfind, hany, ih]
    · simp [hu, ih]

/-- For a store state in which `kategori_id` is a key of `kategori`, the stored ids fit `int`
and the stored powers and durations are finite numbers, a GET request of a user whose session
username resolves to `userID` is answered with status 200 and the encoding of a slice whose
elements are, in table order, exactly one item per usage record that has `user_id = userID`
and a category row with the same `kategori_id`; when there is at least one such record the
body is the array of these items. -/
theorem history_of_owned_categorised_records (db : Database)
    (store : Request → String → Except String Session) (r : Request) (session : Session)
    (username : String) (userID : Int)
    (hpk : (db.kategori.map Category.kategori_id).Nodup)
    (hrp : ∀ rp ∈ db.riwayat_perangkat, fitsInt rp.id = true)
    (hk : ∀ k ∈ db.kategori, fitsInt k.kategori_id = true)
    (hfin : ∀ rp ∈ db.riwayat_perangkat, rp.daya.isFinite = true ∧ rp.durasi.isFinite = true)
    (hm : r.Method = MethodGet)
    (hs : store r sessionName = Except.ok session)
    (hu : session.username = some username)
    (hid : db.selectUserID username = Except.ok userID) :
    (GetDeviceHistoryHandler (db.env store) r).w.wroteHeader = [200] ∧
    (∃ history doc,
      GoSlice.elems history = expectedHistory db userID ∧
      marshalHistory history = some doc ∧
      (GetDeviceHistoryHandler (db.env store) r).w.body = [Chunk.json doc]) ∧
    (expectedHistory db userID ≠ [] →
      (GetDeviceHistoryHandler (db.env store) r).w.body
        = [Chunk.json (Json.arr ((expectedHistory db userID).map HistoryResponseItem.toJson))]) ∧
    (expectedHistory db userID = [] →
      (GetDeviceHistoryHandler (db.env store) r).w.body = [Chunk.json Json.null]) ∧
    (expectedHistory db userID).length
      = (db.riwayat_perangkat.countP fun rp =>
          rp.user_id == userID && db.kategori.any fun k => k.kategori_id == rp.kategori_id) := by
  obtain ⟨history, hscan, helems⟩ := scanLoop_elems (db.selectHistory userID)
  have hnil : db.selectHistory userID = [] → history = none := by
    intro h
    rw [h] at hscan
    exact (Except.ok.inj hscan).symm
  have hmap : (db.selectHistory userID).map scanItem = expectedHistory db userID :=
    selectHistory_scanItem db userID hpk
  rw [hmap] at helems
  rw [← selectHistory_scans db userID hrp hk] at hscan
  have hs2 : (db.env store).StoreGet r sessionName = Except.ok session := hs
  have hid2 : (db.env store).QueryRowScan selectUserSQL username = Except.ok userID := by
    rw [env_QueryRowScan, hid]
  have hout := handler_success hs2 hu hid2 hm (env_Query db store userID) hscan rfl
  have henc := expectedHistory_encodable db userID hfin
  have hdoc : ∃ doc, marshalHistory history = some doc ∧
      (expectedHistory db userID ≠ [] →
        doc = Json.arr ((expectedHistory db userID).map HistoryResponseItem.toJson)) ∧
      (expectedHistory db userID = [] → doc = Json.null) := by
    cases history with
    | none =>
      refine ⟨Json.null, rfl, ?_, fun _ => rfl⟩
      intro hne
      exact absurd helems.symm hne
    | some items =>
      have hitems : items = expectedHistory db userID := helems
      refine ⟨Json.arr ((expectedHistory db userID).map HistoryResponseItem.toJson), ?_, ?_, ?_⟩
      · rw [hitems]
        unfold marshalHistory
        simp only [henc, if_true]
      · intro _
        rfl
      · intro hempty
        rw [← hmap] at hempty
        have := hnil (List.map_eq_nil_iff.mp hempty)
        cases this
  obtain ⟨doc, hmarshal, hshape, hnull⟩ := hdoc
  rw [hout]
  refine ⟨encodeHistory_wroteHeader history, ⟨history, doc, helems, hmarshal,
    encodeHistory_body hmarshal⟩, ?_, ?_, expectedHistory_length db userID⟩
  · intro hne
    rw [← hshape hne]
    exact encodeHistory_body hmarshal
  · intro hempty
    rw [← hnull hempty]
    exact encodeHistory_body hmarshal

set_option maxRecDepth 8000 in
/-- The history of `alice` in the sample store: she owns three records, two of them with a
category, and gets the array of these two. -/
theorem history_of_owned_categorised_records_sample :
    (GetDeviceHistoryHandler (sampleDB.env (storeWith aliceSession)) getRequest).w.body
      = [Chunk.json (Json.arr
          [ (projectRecord
              { id := 100, user_id := 1, nama_perangkat := "Kulkas", merek := "Sharp",
                daya := f1_5, durasi := f2_0, tanggal_input := "2024-05-01", kategori_id := 10 }
              { kategori_id := 10, nama_kategori := "Dapur" }).toJson,
            (projectRecord
              { id := 103, user_id := 1, nama_perangkat := "Lampu kamar", merek := "Hannochs",
                daya := f2_0, durasi := f2_0, tanggal_input := "2024-05-04", kategori_id := 20 }
              { kategori_id := 20, nama_kategori := "Lampu" }).toJson ])] :=
  (history_of_owned_categorised_records sampleDB (storeWith aliceSession)
    getRequest aliceSession "alice" 1 (by decide) (by decide) (by decide) (by decide)
    rfl rfl rfl rfl).2.2.1 (by decide)

set_option maxRecDepth 8000 in
/-- C4 (code evaluated at the failing input): in a store whose only usage record belongs to
`bob`, a GET request of `alice` (N = 0 records of hers with a category) is answered with
status 200 and the JSON document `null`, which is not the array of her zero items; the record
of `bob` does not appear. -/
theorem C4_no_owned_record_encodes_null_not_array :
    otherUserOnlyDB.selectUserID "alice" = Except.ok 1 ∧
    expectedHistory otherUserOnlyDB 1 = [] ∧
    otherUserOnlyDB.selectHistory 1 = [] ∧
    (GetDeviceHistoryHandler (otherUserOnlyDB.env (storeWith aliceSession)) getRequest).w.status
      = some 200 ∧
    (GetDeviceHistoryHandler (otherUserOnlyDB.env (storeWith aliceSession)) getRequest).w.body
      = [Chunk.json Json.null] ∧
    (GetDeviceHistoryHandler (otherUserOnlyDB.env (storeWith aliceSession)) getRequest).w.body
      ≠ [Chunk.json (Json.arr
          ((expectedHistory otherUserOnlyDB 1).map HistoryResponseItem.toJson))] := by
  refine ⟨rfl, rfl, rfl, rfl, rfl, ?_⟩
  intro h
  have h2 : [Chunk.json Json.null] = [Chunk.json (Json.arr [])] := h
  simp at h2

/-! ## Error details stay out of the response -/

/-- A run that fails at `step` sends the fixed text of that step with status 500. -/
theorem response_of_failure {env : Env} {r : Request} {step : Step} {err : String}
    (h : FailsAt env r step err) :
    (GetDeviceHistoryHandler env r).w
      = httpError ResponseWriter.new (stepMessage step) StatusInternalServerError := by
  cases step with
  | session =>
    rw [handler_session_error h]
    rfl
  | userLookup =>
    obtain ⟨session, username, hs, hu, hid⟩ := h
    rw [handler_user_error hs hu hid]
    rfl
  | query =>
    obtain ⟨session, username, userID, hs, hu, hid, hm, hq⟩ := h
    rw [handler_query_error hs hu hid hm hq]
    rfl
  | scan =>
    obtain ⟨session, username, userID, rows, pre, post, hs, hu, hid, hm, hq, hscans⟩ := h
    have hscan : scanLoop rows.scans none = Except.error err := by
      rw [hscans]
      exact scanLoop_error_at pre err post none
    rw [handler_scan_error hs hu hid hm hq hscan]
    rfl
  | iteration =>
    obtain ⟨session, username, userID, rows, cols, hs, hu, hid, hm, hq, hscans, herr⟩ := h
    obtain ⟨history, hscan, _⟩ := scanLoop_elems cols
    rw [← hscans] at hscan
    rw [handler_iteration_error hs hu hid hm hq hscan herr]
    rfl

/-- C8: two runs that fail at the same step (session acquisition, user lookup, query, scan or
cursor iteration) get the same response, status and body and headers, whatever error texts
the session store or data store report and whatever the usernames are. -/
theorem C8_response_independent_of_error_detail (env1 env2 : Env) (r1 r2 : Request)
    (step : Step) (err1 err2 : String)
    (h1 : FailsAt env1 r1 step err1) (h2 : FailsAt env2 r2 step err2) :
    (GetDeviceHistoryHandler env1 r1).w.status = (GetDeviceHistoryHandler env2 r2).w.status ∧
    (GetDeviceHistoryHandler env1 r1).w.body = (GetDeviceHistoryHandler env2 r2).w.body ∧
    (GetDeviceHistoryHandler env1 r1).w = (GetDeviceHistoryHandler env2 r2).w := by
  rw [response_of_failure h1, response_of_failure h2]
  exact ⟨rfl, rfl, rfl⟩

/-- C8, at two user lookups that fail for different usernames with different error texts: the
responses agree while the log lines differ. -/
theorem C8_response_independent_of_error_detail_witness :
    (GetDeviceHistoryHandler
        (fixedEnv (storeWith aliceSession) (Except.error "sql: no rows in result set")
          (Except.error "unused")) getRequest).w
      = (GetDeviceHistoryHandler
          (fixedEnv (storeWith { Values := [(GoValue.string "username", GoValue.string "bob")] })
            (Except.error "dial tcp 127.0.0.1:3306: connect: connection refused")
            (Except.error "unused")) getRequest).w ∧
    (GetDeviceHistoryHandler
        (fixedEnv (storeWith aliceSession) (Except.error "sql: no rows in result set")
          (Except.error "unused")) getRequest).log
      ≠ (GetDeviceHistoryHandler
          (fixedEnv (storeWith { Values := [(GoValue.string "username", GoValue.string "bob")] })
            (Except.error "dial tcp 127.0.0.1:3306: connect: connection refused")
            (Except.error "unused")) getRequest).log :=
  ⟨(C8_response_independent_of_error_detail
      (fixedEnv (storeWith aliceSession) (Except.error "sql: no rows in result set")
        (Except.error "unused"))
      (fixedEnv (storeWith { Values := [(GoValue.string "username", GoValue.string "bob")] })
        (Except.error "dial tcp 127.0.0.1:3306: connect: connection refused")
        (Except.error "unused"))
      getRequest getRequest Step.userLookup "sql: no rows in result set"
      "dial tcp 127.0.0.1:3306: connect: connection refused"
      ⟨aliceSession, "alice", rfl, rfl, rfl⟩
      ⟨{ Values := [(GoValue.string "username", GoValue.string "bob")] }, "bob",
        rfl, rfl, rfl⟩).2.2,
   by decide⟩

/-! ## The status of every response -/

/-- C9: for every request and every behaviour of the session store and the data store the
handler sends exactly one status line, with code 200, 401, 405 or 500; the code is 200 if and
only if session acquisition succeeds, the session `username` is a string, the user lookup
returns a row, the method is GET, the history query executes, every row scans and the cursor
reports no error. -/
theorem C9_one_status_and_200_iff_every_step_succeeds (env : Env) (r : Request) :
    (∃ code, (GetDeviceHistoryHandler env r).w.wroteHeader = [code] ∧
      (code = 200 ∨ code = 401 ∨ code = 405 ∨ code = 500)) ∧
    ((GetDeviceHistoryHandler env r).w.status = some 200 ↔ Succeeds env r) := by
  have not200 : ∀ (msg : String) (code : Nat), code ≠ 200 →
      ¬ (httpError ResponseWriter.new msg code).status = some 200 := by
    intro msg code hc h
    rw [httpError_status] at h
    exact hc (Option.some.inj h)
  cases hs : env.StoreGet r sessionName with
  | error err =>
    rw [handler_session_error hs]
    refine ⟨⟨500, rfl, by decide⟩, ?_⟩
    constructor
    · intro h
      exact absurd h (not200 _ _ (by decide))
    · rintro ⟨session, _, _, _, hs2, _⟩
      rw [hs] at hs2
      cases hs2
  | ok session =>
  cases hu : session.username with
  | none =>
    rw [handler_unauthenticated hs hu]
    refine ⟨⟨401, rfl, by decide⟩, ?_⟩
    constructor
    · intro h
      exact absurd h (not200 _ _ (by decide))
    · rintro ⟨session2, username2, _, _, hs2, hu2, _⟩
      rw [hs] at hs2
      cases hs2
      rw [hu] at hu2
      cases hu2
  | some username =>
  cases hid : env.QueryRowScan selectUserSQL username with
  | error err =>
    rw [handler_user_error hs hu hid]
    refine ⟨⟨500, rfl, by decide⟩, ?_⟩
    constructor
    · intro h
      exact absurd h (not200 _ _ (by decide))
    · rintro ⟨session2, username2, userID2, _, hs2, hu2, hid2, _⟩
      rw [hs] at hs2
      cases hs2
      rw [hu] at hu2
      cases hu2
      rw [hid] at hid2
      cases hid2
  | ok userID =>
  by_cases hm : r.Method = MethodGet
  · cases hq : env.Query selectHistorySQL userID with
    | error err =>
      rw [handler_query_error hs hu hid hm hq]
      refine ⟨⟨500, rfl, by decide⟩, ?_⟩
      constructor
      · intro h
        exact absurd h (not200 _ _ (by decide))
      · rintro ⟨session2, username2, userID2, rows2, hs2, hu2, hid2, _, hq2, _⟩
        rw [hs] at hs2
        cases hs2
        rw [hu] at hu2
        cases hu2
        rw [hid] at hid2
        cases hid2
        rw [hq] at hq2
        cases hq2
    | ok rows =>
    cases hscan : scanLoop rows.scans none with
    | error err =>
      rw [handler_scan_error hs hu hid hm hq hscan]
      refine ⟨⟨500, rfl, by decide⟩, ?_⟩
      constructor
      · intro h
        exact absurd h (not200 _ _ (by decide))
      · rintro ⟨session2, username2, userID2, rows2, hs2, hu2, hid2, _, hq2, hall, _⟩
        rw [hs] at hs2
        cases hs2
        rw [hu] at hu2
        cases hu2
        rw [hid] at hid2
        cases hid2
        rw [hq] at hq2
        cases hq2
        obtain ⟨result, hres⟩ := (scanLoop_ok_iff rows.scans none).mpr hall
        rw [hscan] at hres
        cases hres
    | ok history =>
    cases herr : rows.err with
    | some err =>
      rw [handler_iteration_error hs hu hid hm hq hscan herr]
      refine ⟨⟨500, rfl, by decide⟩, ?_⟩
      constructor
      · intro h
        exact absurd h (not200 _ _ (by decide))
      · rintro ⟨session2, username2, userID2, rows2, hs2, hu2, hid2, _, hq2, _, herr2⟩
        rw [hs] at hs2
        cases hs2
        rw [hu] at hu2
        cases hu2
        rw [hid] at hid2
        cases hid2
        rw [hq] at hq2
        cases hq2
        rw [herr] at herr2
        cases herr2
    | none =>
      rw [handler_success hs hu hid hm hq hscan herr]
      have hwrote := encodeHistory_wroteHeader history
      refine ⟨⟨200, hwrote, by decide⟩, ?_⟩
      constructor
      · intro _
        exact ⟨session, username, userID, rows, hs, hu, hid, hm, hq,
          (scanLoop_ok_iff rows.scans none).mp ⟨history, hscan⟩, herr⟩
      · intro _
        simp only [ResponseWriter.status, hwrote]
        rfl
  · rw [handler_method_not_allowed hs hu hid hm]
    refine ⟨⟨405, rfl, by decide⟩, ?_⟩
    constructor
    · intro h
      exact absurd h (not200 _ _ (by decide))
    · rintro ⟨_, _, _, _, _, _, _, hm2, _⟩
      exact absurd hm2 hm

end EnerTrack
